import Mathlib

/-!
Verification of the Criteria Toolkit background script (tab-close arbitrator,
redirect-rule controller, initialization).  The definitions below are a shallow
embedding of the background script: the in-memory state (`autoCloseEnabled`,
`closingTabs`, `tabTimers`) together with the host runtime bookkeeping (pending
timers, pending asynchronous callbacks) forms a `Config`; each asynchronous
callback or environment signal is an `Event`, and `step` executes the single
synchronous turn the script runs for that event, returning the new state and
the list of externally visible actions (tab-close requests, script injections,
warning/error log entries; info-level logging is not modelled).  `run` folds a
whole event trace.  Pure helpers embed `updateRedirectRules`,
`checkExistingTabs` and the `initialize` function.
-/

namespace Criteria

/-- The fixed target URL monitored by the extension (`TARGET_URL`). -/
def TARGET_URL : String := "http://127.0.0.1:35001/"

/-- Log severity relevant to the claims: warning vs error log entries emitted
by failure branches (info-level logs are not modelled). -/
inductive LogLevel where
  | info
  | warn
  | error
  deriving DecidableEq, Repr

/-- Which code path issued a tab-close request: the 5-second timeout closure
(`closeTab('timeout')`), the immediate one-shot success check
(`closeTab('success message')`), or the `successMessageFound` message handler
(which calls `browserAPI.tabs.remove` directly). -/
inductive Reason where
  | timeout
  | success
  | observer
  deriving DecidableEq, Repr

/-- Externally visible actions of one synchronous turn of the script. -/
inductive Action where
  | closeRequest (tabId : Nat) (reason : Reason)
  | inject (tabId : Nat)
  | installObserver (tabId : Nat)
  | log (level : LogLevel)
  deriving DecidableEq, Repr

/-- Outcome of the one-shot `checkForSuccessMessage` injection: the injection
errored (`runtime.lastError` set), the success string was found, or it was not
found yet. -/
inductive InjectResult where
  | scriptError
  | found
  | notFound
  deriving DecidableEq, Repr

/-- Events dispatched by the host event loop to the background script:
navigation commits, the 500 ms delayed `closeMatchingTab` call, a pending
5-second timer firing, the injection callback, a `successMessageFound` runtime
message, the `tabs.remove` completion callback (with `failed` recording whether
`runtime.lastError` was set), and an auto-close settings change. -/
inductive Event where
  | navCommitted (tabId : Nat) (url : String) (frameId : Nat)
  | runCloseMatchingTab (tabId : Nat) (url : String)
  | timerFired (timerId : Nat)
  | injectionResult (tabId : Nat) (timerId : Nat) (res : InjectResult)
  | successMessage (tabId : Nat)
  | tabRemoveDone (tabId : Nat) (reason : Reason) (failed : Bool)
  | setAutoClose (enabled : Bool)
  deriving DecidableEq, Repr

/-- The background script state plus host runtime bookkeeping.
`closingTabs` is the `Set` of tab ids being monitored, `tabTimers` the
`Map` from tab id to timer id.  `pendingTimers` maps a scheduled, un-fired,
un-cancelled timer id to the tab id captured by its closure; `pendingCalls`,
`pendingInjections` and `pendingRemoves` record asynchronous callbacks that
have been requested but whose completion has not yet been dispatched. -/
structure Config where
  autoCloseEnabled : Bool
  closingTabs : List Nat
  tabTimers : List (Nat × Nat)
  pendingTimers : List (Nat × Nat)
  pendingCalls : List (Nat × String)
  pendingInjections : List (Nat × Nat)
  pendingRemoves : List (Nat × Reason)
  nextTimerId : Nat
  deriving DecidableEq, Repr

/-- Association-list lookup, embedding `Map.get`. -/
def mapGet (m : List (Nat × Nat)) (k : Nat) : Option Nat :=
  match m with
  | [] => none
  | (k2, v) :: rest => if k2 = k then some v else mapGet rest k

/-- Association-list update, embedding `Map.set` (replaces an existing key,
otherwise inserts). -/
def mapSet (m : List (Nat × Nat)) (k v : Nat) : List (Nat × Nat) :=
  match m with
  | [] => [(k, v)]
  | (k2, v2) :: rest => if k2 = k then (k, v) :: rest else (k2, v2) :: mapSet rest k v

/-- Association-list removal, embedding `Map.delete`. -/
def mapDelete (m : List (Nat × Nat)) (k : Nat) : List (Nat × Nat) :=
  m.filter (fun p => p.1 ≠ k)

/-- Remove the first occurrence of an element (used to consume one pending
callback from the runtime bookkeeping). -/
def removeFirst {α : Type} [DecidableEq α] : List α → α → List α
  | [], _ => []
  | y :: ys, x => if y = x then ys else y :: removeFirst ys x

/-- The `closeTab(reason)` closure defined inside `closeMatchingTab`:
if the tab is still in `closingTabs`, clear any timer the `tabTimers` map
holds for it (both cancelling the runtime timer and deleting the map entry)
and issue the `tabs.remove` request; the completion callback (which deletes
the tab from `closingTabs`) is recorded as pending.  If the tab is no longer
tracked, do nothing. -/
def processCloseTab (c : Config) (tabId : Nat) (reason : Reason) : Config × List Action :=
  if tabId ∈ c.closingTabs then
    let c1 :=
      match mapGet c.tabTimers tabId with
      | some tid =>
          { c with tabTimers := mapDelete c.tabTimers tabId,
                   pendingTimers := c.pendingTimers.filter (fun p => p.1 ≠ tid) }
      | none => c
    ({ c1 with pendingRemoves := (tabId, reason) :: c1.pendingRemoves },
     [Action.closeRequest tabId reason])
  else (c, [])

/-- The synchronous body of `closeMatchingTab(tabId, url)`: bail out unless
auto-close is enabled and the URL is exactly the target; bail out if the tab
is already tracked; otherwise add the tab to `closingTabs`, schedule the fresh
5-second timer, store its handle in `tabTimers`, and launch the one-shot
success-check injection (whose callback becomes pending). -/
def processCloseMatchingTab (c : Config) (tabId : Nat) (url : String) : Config × List Action :=
  if c.autoCloseEnabled = false ∨ url ≠ TARGET_URL then (c, [])
  else if tabId ∈ c.closingTabs then (c, [])
  else
    let tid := c.nextTimerId
    ({ c with closingTabs := tabId :: c.closingTabs,
              pendingTimers := (tid, tabId) :: c.pendingTimers,
              tabTimers := mapSet c.tabTimers tabId tid,
              pendingInjections := (tabId, tid) :: c.pendingInjections,
              nextTimerId := tid + 1 },
     [Action.inject tabId])

/-- One synchronous turn of the background script for one dispatched event.

* `navCommitted`: the `webNavigation.onCommitted` listener — when auto-close is
  on, the frame is the main frame and the URL is the target, it schedules the
  500 ms delayed `closeMatchingTab` call.
* `runCloseMatchingTab`: that delayed call being dispatched.
* `timerFired`: a still-pending 5-second timer fires and runs
  `closeTab('timeout')` for the tab id captured by its closure.
* `injectionResult`: the `executeScript` callback — on `runtime.lastError` it
  only logs a warning and leaves all state alone; on a `true` result it cancels
  the captured timer id and runs `closeTab('success message')`; otherwise it
  injects the mutation observer.
* `successMessage`: the `onMessage` listener for a message whose `action` field
  is `successMessageFound`.  The `switch (request.command)` statement matches
  no case for such a message, so only the `request.action` branch runs: when
  the tab id is truthy and tracked it calls `tabs.remove` directly — without
  touching `tabTimers` or cancelling the pending timer.
* `tabRemoveDone`: the `tabs.remove` completion callback — logs a warning
  (`closeTab` paths) or an error (message-handler path) when the removal
  failed, then deletes the tab from `closingTabs`.
* `setAutoClose`: the `setAutoClose` message / `storage.onChanged` update of
  the auto-close flag. -/
def step (c : Config) (e : Event) : Config × List Action :=
  match e with
  | Event.setAutoClose b => ({ c with autoCloseEnabled := b }, [])
  | Event.navCommitted tabId url frameId =>
      if c.autoCloseEnabled = true ∧ frameId = 0 ∧ url = TARGET_URL then
        ({ c with pendingCalls := (tabId, url) :: c.pendingCalls }, [])
      else (c, [])
  | Event.runCloseMatchingTab tabId url =>
      if (tabId, url) ∈ c.pendingCalls then
        processCloseMatchingTab
          { c with pendingCalls := removeFirst c.pendingCalls (tabId, url) } tabId url
      else (c, [])
  | Event.timerFired tid =>
      match mapGet c.pendingTimers tid with
      | some tabId =>
          processCloseTab
            { c with pendingTimers := c.pendingTimers.filter (fun p => p.1 ≠ tid) }
            tabId Reason.timeout
      | none => (c, [])
  | Event.injectionResult tabId tid res =>
      if (tabId, tid) ∈ c.pendingInjections then
        let c1 := { c with pendingInjections := removeFirst c.pendingInjections (tabId, tid) }
        match res with
        | InjectResult.scriptError => (c1, [Action.log LogLevel.warn])
        | InjectResult.found =>
            processCloseTab
              { c1 with pendingTimers := c1.pendingTimers.filter (fun p => p.1 ≠ tid) }
              tabId Reason.success
        | InjectResult.notFound => (c1, [Action.installObserver tabId])
      else (c, [])
  | Event.successMessage tabId =>
      if tabId ≠ 0 ∧ tabId ∈ c.closingTabs then
        ({ c with pendingRemoves := (tabId, Reason.observer) :: c.pendingRemoves },
         [Action.closeRequest tabId Reason.observer])
      else (c, [])
  | Event.tabRemoveDone tabId reason failed =>
      if (tabId, reason) ∈ c.pendingRemoves then
        ({ c with pendingRemoves := removeFirst c.pendingRemoves (tabId, reason),
                  closingTabs := c.closingTabs.filter (fun t => t ≠ tabId) },
         if failed then
           if reason = Reason.observer then [Action.log LogLevel.error]
           else [Action.log LogLevel.warn]
         else [])
      else (c, [])

/-- Fold a trace of dispatched events, accumulating the emitted actions. -/
def run (c : Config) (es : List Event) : Config × List Action :=
  match es with
  | [] => (c, [])
  | e :: rest =>
      let s := step c e
      let r := run s.1 rest
      (r.1, s.2 ++ r.2)

/-- The state of a freshly started background script. -/
def initConfig : Config :=
  { autoCloseEnabled := true, closingTabs := [], tabTimers := [], pendingTimers := [],
    pendingCalls := [], pendingInjections := [], pendingRemoves := [], nextTimerId := 0 }

/-- A configuration the background script can actually reach from startup. -/
def Reachable (c : Config) : Prop := ∃ es : List Event, (run initConfig es).1 = c

/-- Is this action a tab-close request for the given tab? -/
def isCloseFor (tabId : Nat) (a : Action) : Bool :=
  match a with
  | Action.closeRequest t _ => t = tabId
  | _ => false

/-- Number of tab-close requests for a given tab in an action list. -/
def closeCountFor (acts : List Action) (tabId : Nat) : Nat :=
  (acts.filter (isCloseFor tabId)).length

/-- Is this action a tab-close request (for any tab)? -/
def isClose (a : Action) : Bool :=
  match a with
  | Action.closeRequest _ _ => true
  | _ => false

/-- Number of tab-close requests in an action list. -/
def closeCount (acts : List Action) : Nat :=
  (acts.filter isClose).length

/-- Keys of an association list (the tab ids of the timer map). -/
def mapKeys (m : List (Nat × Nat)) : List Nat :=
  m.map Prod.fst

/-- Invariant: the timer map holds at most one entry per tab identifier. -/
def TimerInv (c : Config) : Prop := (mapKeys c.tabTimers).Nodup

/- Redirect-rule controller (`updateRedirectRules` and the two
`storage.onChanged` redirect branches). -/

/-- Identifier of the frontend ruleset. -/
def FRONTEND_RULESET : String := "frontend_rules"

/-- Identifier of the backend ruleset. -/
def BACKEND_RULESET : String := "backend_rules"

/-- Enabled/disabled state of the two declarative rulesets. -/
structure RulesetState where
  frontendRulesEnabled : Bool
  backendRulesEnabled : Bool
  deriving DecidableEq, Repr

/-- The `rulesToEnable` list built by `updateRedirectRules`. -/
def redirectRulesToEnable (frontendEnabled backendEnabled : Bool) : List String :=
  (if frontendEnabled then [FRONTEND_RULESET] else []) ++
  (if backendEnabled then [BACKEND_RULESET] else [])

/-- The `rulesToDisable` list built by `updateRedirectRules`. -/
def redirectRulesToDisable (frontendEnabled backendEnabled : Bool) : List String :=
  (if frontendEnabled then [] else [FRONTEND_RULESET]) ++
  (if backendEnabled then [] else [BACKEND_RULESET])

/-- Semantics of `declarativeNetRequest.updateEnabledRulesets`: rulesets named
in the enable list become enabled, those named in the disable list become
disabled, all others keep their state. -/
def applyRulesetUpdate (rs : RulesetState) (enable disable : List String) : RulesetState :=
  { frontendRulesEnabled :=
      if FRONTEND_RULESET ∈ enable then true
      else if FRONTEND_RULESET ∈ disable then false
      else rs.frontendRulesEnabled,
    backendRulesEnabled :=
      if BACKEND_RULESET ∈ enable then true
      else if BACKEND_RULESET ∈ disable then false
      else rs.backendRulesEnabled }

/-- `updateRedirectRules(frontendEnabled, backendEnabled)`: build the two
lists from the flags and apply them to the rulesets. -/
def updateRedirectRules (frontendEnabled backendEnabled : Bool) (rs : RulesetState) :
    RulesetState :=
  applyRulesetUpdate rs (redirectRulesToEnable frontendEnabled backendEnabled)
    (redirectRulesToDisable frontendEnabled backendEnabled)

/-- The two in-memory redirect flags of the background script. -/
structure RedirectFlags where
  frontendRedirectEnabled : Bool
  backendRedirectEnabled : Bool
  deriving DecidableEq, Repr

/-- The `storage.onChanged` branch for `frontendRedirectEnabled`: store the
new value and call `updateRedirectRules` with both current flags. -/
def onFrontendRedirectChanged (flags : RedirectFlags) (newValue : Bool) (rs : RulesetState) :
    RedirectFlags × RulesetState :=
  let flags2 : RedirectFlags := { flags with frontendRedirectEnabled := newValue }
  (flags2, updateRedirectRules flags2.frontendRedirectEnabled flags2.backendRedirectEnabled rs)

/-- The `storage.onChanged` branch for `backendRedirectEnabled`: store the
new value and call `updateRedirectRules` with both current flags. -/
def onBackendRedirectChanged (flags : RedirectFlags) (newValue : Bool) (rs : RulesetState) :
    RedirectFlags × RulesetState :=
  let flags2 : RedirectFlags := { flags with backendRedirectEnabled := newValue }
  (flags2, updateRedirectRules flags2.frontendRedirectEnabled flags2.backendRedirectEnabled rs)

/- Initialization (`initialize` and `checkExistingTabs`). -/

/-- A currently open browser tab as returned by `tabs.query`. -/
structure TabInfo where
  id : Nat
  url : String
  status : String
  deriving DecidableEq, Repr

/-- Grace delay (ms) applied by `checkExistingTabs` to a tab still loading. -/
def LOADING_GRACE_MS : Nat := 1000

/-- `checkExistingTabs`: when auto-close is enabled, every open tab whose URL
is the target is fed to `closeMatchingTab`, delayed by 1000 ms when the tab is
still in the `loading` state and immediately otherwise.  The result records,
per matching tab, the delay after which `closeMatchingTab` is invoked. -/
def checkExistingTabs (autoCloseEnabled : Bool) (openTabs : List TabInfo) :
    List (Nat × Nat) :=
  if autoCloseEnabled = false then []
  else
    (openTabs.filter (fun t => t.url = TARGET_URL)).map
      (fun t => (t.id, if t.status = "loading" then LOADING_GRACE_MS else 0))

/-- The settings record read from `storage.local` at startup (`none` when the
key has never been written). -/
structure StoredSettings where
  autoClose : Option Bool
  frontendRedirectEnabled : Option Bool
  backendRedirectEnabled : Option Bool
  deriving DecidableEq, Repr

/-- Result of running the startup `initialize` function: the three in-memory
flags, the applied ruleset state, and the monitoring schedule produced by
`checkExistingTabs`. -/
structure InitResult where
  autoCloseEnabled : Bool
  frontendRedirectEnabled : Bool
  backendRedirectEnabled : Bool
  rules : RulesetState
  monitorSchedule : List (Nat × Nat)
  deriving DecidableEq, Repr

/-- The startup `initialize` function of the background script: default
auto-close to `true` and the redirect flags to `false` when unset, apply
`updateRedirectRules` with the loaded flags, and when auto-close is enabled
scan existing tabs via `checkExistingTabs`. -/
def backgroundInit (stored : StoredSettings) (rs : RulesetState) (openTabs : List TabInfo) :
    InitResult :=
  let ac := stored.autoClose.getD true
  let f := stored.frontendRedirectEnabled.getD false
  let b := stored.backendRedirectEnabled.getD false
  { autoCloseEnabled := ac,
    frontendRedirectEnabled := f,
    backendRedirectEnabled := b,
    rules := updateRedirectRules f b rs,
    monitorSchedule := if ac then checkExistingTabs ac openTabs else [] }

/- Helper lemmas about the arbitrator's step function. -/

theorem processCloseTab_actions (c : Config) (t : Nat) (r : Reason) :
    (processCloseTab c t r).2 =
      if t ∈ c.closingTabs then [Action.closeRequest t r] else [] := by
  by_cases h : t ∈ c.closingTabs
  · cases hm : mapGet c.tabTimers t <;> simp [processCloseTab, h, hm]
  · simp [processCloseTab, h]

theorem processCloseTab_closingTabs (c : Config) (t : Nat) (r : Reason) :
    (processCloseTab c t r).1.closingTabs = c.closingTabs := by
  by_cases h : t ∈ c.closingTabs
  · cases hm : mapGet c.tabTimers t <;> simp [processCloseTab, h, hm]
  · simp [processCloseTab, h]

theorem processCloseTab_tabTimers (c : Config) (t : Nat) (r : Reason) :
    (processCloseTab c t r).1.tabTimers = c.tabTimers ∨
      (processCloseTab c t r).1.tabTimers = mapDelete c.tabTimers t := by
  by_cases h : t ∈ c.closingTabs
  · cases hm : mapGet c.tabTimers t <;> simp [processCloseTab, h, hm]
  · simp [processCloseTab, h]

theorem processCloseMatchingTab_no_close (c : Config) (t T : Nat) (url : String) (r : Reason) :
    Action.closeRequest T r ∉ (processCloseMatchingTab c t url).2 := by
  by_cases h1 : c.autoCloseEnabled = false ∨ url ≠ TARGET_URL
  · simp [processCloseMatchingTab, h1]
  · by_cases h2 : t ∈ c.closingTabs <;> simp [processCloseMatchingTab, h1, h2]

theorem processCloseMatchingTab_tabTimers (c : Config) (t : Nat) (url : String) :
    (processCloseMatchingTab c t url).1.tabTimers = c.tabTimers ∨
      (processCloseMatchingTab c t url).1.tabTimers = mapSet c.tabTimers t c.nextTimerId := by
  by_cases h1 : c.autoCloseEnabled = false ∨ url ≠ TARGET_URL
  · simp [processCloseMatchingTab, h1]
  · by_cases h2 : t ∈ c.closingTabs <;> simp [processCloseMatchingTab, h1, h2]

theorem no_close_for_untracked (c : Config) (e : Event) (T : Nat) (r : Reason)
    (hT : T ∉ c.closingTabs) :
    Action.closeRequest T r ∉ (step c e).2 := by
  cases e with
  | setAutoClose b => simp [step]
  | navCommitted tabId url frameId =>
      simp only [step]
      split <;> simp
  | runCloseMatchingTab tabId url =>
      simp only [step]
      split
      · exact processCloseMatchingTab_no_close _ _ _ _ _
      · simp
  | timerFired tid =>
      simp only [step]
      cases hm : mapGet c.pendingTimers tid with
      | none => simp
      | some tabId =>
          intro hmem
          rw [processCloseTab_actions] at hmem
          split at hmem
          · rename_i hin
            simp only [List.mem_singleton, Action.closeRequest.injEq] at hmem
            obtain ⟨rfl, -⟩ := hmem
            exact hT hin
          · simp at hmem
  | injectionResult tabId tid res =>
      simp only [step]
      split
      · cases res with
        | scriptError => simp
        | notFound => simp
        | found =>
            intro hmem
            rw [processCloseTab_actions] at hmem
            split at hmem
            · rename_i hin
              simp only [List.mem_singleton, Action.closeRequest.injEq] at hmem
              obtain ⟨rfl, -⟩ := hmem
              exact hT hin
            · simp at hmem
      · simp
  | successMessage tabId =>
      simp only [step]
      split
      · rename_i hg
        intro hmem
        simp only [List.mem_singleton, Action.closeRequest.injEq] at hmem
        obtain ⟨rfl, -⟩ := hmem
        exact hT hg.2
      · simp
  | tabRemoveDone tabId reason failed =>
      simp only [step]
      split
      · cases failed with
        | true => by_cases hr : reason = Reason.observer <;> simp [hr]
        | false => simp
      · simp

theorem closeCount_singleton_close (t : Nat) (r : Reason) :
    closeCount [Action.closeRequest t r] = 1 := rfl

theorem closeCount_step_le_one (c : Config) (e : Event) :
    closeCount (step c e).2 ≤ 1 := by
  cases e with
  | setAutoClose b => simp [step, closeCount]
  | navCommitted tabId url frameId =>
      simp only [step]
      split <;> simp [closeCount]
  | runCloseMatchingTab tabId url =>
      simp only [step]
      split
      · by_cases h1 : c.autoCloseEnabled = false ∨ url ≠ TARGET_URL
        · simp [processCloseMatchingTab, h1, closeCount]
        · by_cases h2 : tabId ∈ c.closingTabs <;>
            simp [processCloseMatchingTab, h1, h2, closeCount, isClose]
      · simp [closeCount]
  | timerFired tid =>
      simp only [step]
      cases hm : mapGet c.pendingTimers tid with
      | none => simp [closeCount]
      | some tabId =>
          rw [processCloseTab_actions]
          split <;> simp [closeCount, isClose]
  | injectionResult tabId tid res =>
      simp only [step]
      split
      · cases res with
        | scriptError => simp [closeCount, isClose]
        | notFound => simp [closeCount, isClose]
        | found =>
            rw [processCloseTab_actions]
            split <;> simp [closeCount, isClose]
      · simp [closeCount]
  | successMessage tabId =>
      simp only [step]
      split <;> simp [closeCount, isClose]
  | tabRemoveDone tabId reason failed =>
      simp only [step]
      split
      · cases failed with
        | true => by_cases hr : reason = Reason.observer <;> simp [hr, closeCount, isClose]
        | false => simp [closeCount]
      · simp [closeCount]

/- The timer-map key invariant: the `tabTimers` map never holds two entries
for the same tab identifier. -/

theorem mem_mapKeys_mapSet (m : List (Nat × Nat)) (k v a : Nat) :
    a ∈ mapKeys (mapSet m k v) ↔ a ∈ mapKeys m ∨ a = k := by
  induction m with
  | nil => simp [mapSet, mapKeys]
  | cons p rest ih =>
      obtain ⟨k2, v2⟩ := p
      by_cases h : k2 = k
      · subst h
        simp only [mapSet, if_true, mapKeys, List.map_cons, List.mem_cons]
        tauto
      · simp only [mapSet, h, if_false, mapKeys, List.map_cons, List.mem_cons]
        rw [show List.map Prod.fst (mapSet rest k v) = mapKeys (mapSet rest k v) from rfl, ih]
        tauto

theorem nodup_mapKeys_mapSet (m : List (Nat × Nat)) (k v : Nat)
    (h : (mapKeys m).Nodup) : (mapKeys (mapSet m k v)).Nodup := by
  induction m with
  | nil => simp [mapSet, mapKeys]
  | cons p rest ih =>
      obtain ⟨k2, v2⟩ := p
      simp only [mapKeys, List.map_cons, List.nodup_cons] at h
      obtain ⟨hk2, hrest⟩ := h
      by_cases hkk : k2 = k
      · subst hkk
        simp only [mapSet, if_true, mapKeys, List.map_cons, List.nodup_cons]
        exact ⟨hk2, hrest⟩
      · simp only [mapSet, hkk, if_false, mapKeys, List.map_cons, List.nodup_cons]
        refine ⟨fun hc => ?_, ih hrest⟩
        rw [show List.map Prod.fst (mapSet rest k v) = mapKeys (mapSet rest k v) from rfl,
          mem_mapKeys_mapSet] at hc
        rcases hc with h1 | h1
        · exact hk2 h1
        · exact hkk h1

theorem nodup_mapKeys_filter (m : List (Nat × Nat)) (p : Nat × Nat → Bool)
    (h : (mapKeys m).Nodup) : (mapKeys (m.filter p)).Nodup :=
  List.Nodup.sublist (List.Sublist.map Prod.fst (List.filter_sublist m)) h

theorem timerInv_processCloseTab (c : Config) (t : Nat) (r : Reason) (h : TimerInv c) :
    TimerInv (processCloseTab c t r).1 := by
  unfold TimerInv
  rcases processCloseTab_tabTimers c t r with he | he <;> rw [he]
  · exact h
  · exact nodup_mapKeys_filter _ _ h

theorem timerInv_processCloseMatchingTab (c : Config) (t : Nat) (url : String)
    (h : TimerInv c) : TimerInv (processCloseMatchingTab c t url).1 := by
  unfold TimerInv
  rcases processCloseMatchingTab_tabTimers c t url with he | he <;> rw [he]
  · exact h
  · exact nodup_mapKeys_mapSet _ _ _ h

theorem timerInv_step (c : Config) (e : Event) (h : TimerInv c) :
    TimerInv (step c e).1 := by
  cases e with
  | setAutoClose b => exact h
  | navCommitted tabId url frameId =>
      simp only [step]
      split
      · exact h
      · exact h
  | runCloseMatchingTab tabId url =>
      simp only [step]
      split
      · exact timerInv_processCloseMatchingTab _ _ _ h
      · exact h
  | timerFired tid =>
      simp only [step]
      cases hm : mapGet c.pendingTimers tid with
      | none => exact h
      | some tabId => exact timerInv_processCloseTab _ _ _ h
  | injectionResult tabId tid res =>
      simp only [step]
      split
      · cases res with
        | scriptError => exact h
        | found => exact timerInv_processCloseTab _ _ _ h
        | notFound => exact h
      · exact h
  | successMessage tabId =>
      simp only [step]
      split
      · exact h
      · exact h
  | tabRemoveDone tabId reason failed =>
      simp only [step]
      split
      · exact h
      · exact h

theorem timerInv_run (c : Config) (es : List Event) (h : TimerInv c) :
    TimerInv (run c es).1 := by
  induction es generalizing c with
  | nil => exact h
  | cons e rest ih =>
      simp only [run]
      exact ih _ (timerInv_step c e h)

theorem timerInv_reachable (c : Config) (h : Reachable c) : TimerInv c := by
  obtain ⟨es, rfl⟩ := h
  exact timerInv_run initConfig es (by simp [TimerInv, initConfig, mapKeys])

/- Claim theorems. -/

/-- C1 counterexample: tab 7 becomes tracked via the navigation path
(`onTargetNavigation`), its 5-second timer fires and issues a timeout
close request, and a `successMessageFound` message dispatched before the
close's completion callback (the code removes the tab from tracking only in
that callback) issues a second close request: two tab-close requests are
issued for one tracked tab, refuting the exactly-one property. -/
theorem c1_counterexample :
    closeCountFor (run initConfig
      [Event.navCommitted 7 TARGET_URL 0,
       Event.runCloseMatchingTab 7 TARGET_URL,
       Event.injectionResult 7 0 InjectResult.notFound,
       Event.timerFired 0,
       Event.successMessage 7]).2 7 = 2 := by decide

/-- C1 (amended): each single trigger delivery issues at most one tab-close
request, and any trigger arriving after the close request's completion
callback has removed T from tracking is a no-op: a late success signal
leaves the configuration unchanged and emits nothing, and a stale timer
firing emits no close request for T.  (A trigger delivered between a close
request and its completion callback may still issue a duplicate close, as
the counterexample shows.) -/
theorem c1_close_arbitration (c : Config) (e : Event) (T tid : Nat) (r : Reason)
    (hT : T ∉ c.closingTabs) :
    closeCount (step c e).2 ≤ 1 ∧
    step c (Event.successMessage T) = (c, []) ∧
    Action.closeRequest T r ∉ (step c (Event.timerFired tid)).2 := by
  refine ⟨closeCount_step_le_one c e, ?_, no_close_for_untracked c _ T r hT⟩
  simp only [step]
  rw [if_neg]
  rintro ⟨-, h2⟩
  exact hT h2

/-- Witness for `c1_close_arbitration` at the startup configuration. -/
theorem c1_close_arbitration_witness :
    (7 ∉ initConfig.closingTabs) ∧
    (closeCount (step initConfig (Event.successMessage 7)).2 ≤ 1 ∧
     step initConfig (Event.successMessage 7) = (initConfig, []) ∧
     Action.closeRequest 7 Reason.timeout ∉ (step initConfig (Event.timerFired 0)).2) :=
  ⟨by decide,
   c1_close_arbitration initConfig (Event.successMessage 7) 7 0 Reason.timeout (by decide)⟩

/-- C2 (code bug): a success signal for tracked tab 7 delivered before the
5-second timer fires does issue the close request, but the pending timer is
NOT cancelled: the timer-map entry for tab 7 survives and the 5-second
timer is still pending afterwards.  The timer-clearing code sits in a
`switch (request.command)` branch that a message carrying only an `action`
field never reaches. -/
theorem c2_success_leaves_timer :
    closeCountFor (run initConfig
      [Event.navCommitted 7 TARGET_URL 0,
       Event.runCloseMatchingTab 7 TARGET_URL,
       Event.injectionResult 7 0 InjectResult.notFound,
       Event.successMessage 7]).2 7 = 1 ∧
    mapGet (run initConfig
      [Event.navCommitted 7 TARGET_URL 0,
       Event.runCloseMatchingTab 7 TARGET_URL,
       Event.injectionResult 7 0 InjectResult.notFound,
       Event.successMessage 7]).1.tabTimers 7 = some 0 ∧
    (0, 7) ∈ (run initConfig
      [Event.navCommitted 7 TARGET_URL 0,
       Event.runCloseMatchingTab 7 TARGET_URL,
       Event.injectionResult 7 0 InjectResult.notFound,
       Event.successMessage 7]).1.pendingTimers := by decide

/-- C3: when the one-shot success-check injection reports an error for a
tracked tab, the handler emits only a warning log, leaves the tracking
entry, the timer map and the pending 5-second timer untouched, and the
timer subsequently fires and issues the timeout close request for the
tab. -/
theorem c3_injection_failure_nonfatal (c : Config) (tabId tid : Nat)
    (hpend : (tabId, tid) ∈ c.pendingInjections)
    (htrack : tabId ∈ c.closingTabs)
    (htimer : mapGet c.pendingTimers tid = some tabId) :
    (step c (Event.injectionResult tabId tid InjectResult.scriptError)).2
        = [Action.log LogLevel.warn] ∧
    (step c (Event.injectionResult tabId tid InjectResult.scriptError)).1.closingTabs
        = c.closingTabs ∧
    (step c (Event.injectionResult tabId tid InjectResult.scriptError)).1.tabTimers
        = c.tabTimers ∧
    (step c (Event.injectionResult tabId tid InjectResult.scriptError)).1.pendingTimers
        = c.pendingTimers ∧
    (step (step c (Event.injectionResult tabId tid InjectResult.scriptError)).1
        (Event.timerFired tid)).2 = [Action.closeRequest tabId Reason.timeout] := by
  have h1 : step c (Event.injectionResult tabId tid InjectResult.scriptError)
      = ({ c with pendingInjections := removeFirst c.pendingInjections (tabId, tid) },
         [Action.log LogLevel.warn]) := by
    simp [step, hpend]
  rw [h1]
  refine ⟨rfl, rfl, rfl, rfl, ?_⟩
  simp only [step, htimer]
  rw [processCloseTab_actions]
  simp [htrack]

/-- Witness for `c3_injection_failure_nonfatal` on a concretely tracked tab. -/
theorem c3_injection_failure_nonfatal_witness :
    ((7, 0) ∈ (run initConfig
      [Event.navCommitted 7 TARGET_URL 0,
       Event.runCloseMatchingTab 7 TARGET_URL]).1.pendingInjections ∧
     7 ∈ (run initConfig
      [Event.navCommitted 7 TARGET_URL 0,
       Event.runCloseMatchingTab 7 TARGET_URL]).1.closingTabs ∧
     mapGet (run initConfig
      [Event.navCommitted 7 TARGET_URL 0,
       Event.runCloseMatchingTab 7 TARGET_URL]).1.pendingTimers 0 = some 7) ∧
    (step (step (run initConfig
      [Event.navCommitted 7 TARGET_URL 0,
       Event.runCloseMatchingTab 7 TARGET_URL]).1
        (Event.injectionResult 7 0 InjectResult.scriptError)).1
      (Event.timerFired 0)).2 = [Action.closeRequest 7 Reason.timeout] :=
  ⟨⟨by decide, by decide, by decide⟩,
   (c3_injection_failure_nonfatal (run initConfig
      [Event.navCommitted 7 TARGET_URL 0,
       Event.runCloseMatchingTab 7 TARGET_URL]).1 7 0
      (by decide) (by decide) (by decide)).2.2.2.2⟩

/-- C4: when the auto-close flag is disabled, the navigation listener does
nothing at all, `closeMatchingTab` is a no-op that issues no action, and
even a previously scheduled delayed `closeMatchingTab` call leaves the
tracking set, the timer map and the pending timers unchanged and emits no
action (in particular no timer is scheduled and no close is issued). -/
theorem c4_disabled_noop (c : Config) (tabId frameId : Nat) (url : String)
    (h : c.autoCloseEnabled = false) :
    step c (Event.navCommitted tabId url frameId) = (c, []) ∧
    processCloseMatchingTab c tabId url = (c, []) ∧
    (step c (Event.runCloseMatchingTab tabId url)).1.closingTabs = c.closingTabs ∧
    (step c (Event.runCloseMatchingTab tabId url)).1.tabTimers = c.tabTimers ∧
    (step c (Event.runCloseMatchingTab tabId url)).1.pendingTimers = c.pendingTimers ∧
    (step c (Event.runCloseMatchingTab tabId url)).2 = [] := by
  have hp : ∀ c2 : Config, c2.autoCloseEnabled = false →
      processCloseMatchingTab c2 tabId url = (c2, []) := by
    intro c2 h2
    simp [processCloseMatchingTab, h2]
  refine ⟨?_, hp c h, ?_⟩
  · simp [step, h]
  · simp only [step]
    split
    · rw [hp { c with pendingCalls := removeFirst c.pendingCalls (tabId, url) } h]
      exact ⟨rfl, rfl, rfl, rfl⟩
    · exact ⟨rfl, rfl, rfl, rfl⟩

/-- Witness for `c4_disabled_noop` after disabling auto-close. -/
theorem c4_disabled_noop_witness :
    ((step initConfig (Event.setAutoClose false)).1.autoCloseEnabled = false) ∧
    (step (step initConfig (Event.setAutoClose false)).1
        (Event.navCommitted 4 TARGET_URL 0)
      = ((step initConfig (Event.setAutoClose false)).1, []) ∧
     processCloseMatchingTab (step initConfig (Event.setAutoClose false)).1 4 TARGET_URL
      = ((step initConfig (Event.setAutoClose false)).1, []) ∧
     (step (step initConfig (Event.setAutoClose false)).1
        (Event.runCloseMatchingTab 4 TARGET_URL)).1.closingTabs
      = (step initConfig (Event.setAutoClose false)).1.closingTabs ∧
     (step (step initConfig (Event.setAutoClose false)).1
        (Event.runCloseMatchingTab 4 TARGET_URL)).1.tabTimers
      = (step initConfig (Event.setAutoClose false)).1.tabTimers ∧
     (step (step initConfig (Event.setAutoClose false)).1
        (Event.runCloseMatchingTab 4 TARGET_URL)).1.pendingTimers
      = (step initConfig (Event.setAutoClose false)).1.pendingTimers ∧
     (step (step initConfig (Event.setAutoClose false)).1
        (Event.runCloseMatchingTab 4 TARGET_URL)).2 = []) :=
  ⟨by decide,
   c4_disabled_noop (step initConfig (Event.setAutoClose false)).1 4 0 TARGET_URL (by decide)⟩

/-- C5 counterexample: after tab 9's timeout fires and its close request is
issued, tab 9 is still in the tracking set (removal happens only in the
close's completion callback), and a success signal delivered at that moment
issues a further close attempt for the same identifier before the tracking
entry is removed — refuting the once-closed-no-further-attempts clause. -/
theorem c5_counterexample :
    closeCountFor (run initConfig
      [Event.navCommitted 9 TARGET_URL 0,
       Event.runCloseMatchingTab 9 TARGET_URL,
       Event.injectionResult 9 0 InjectResult.notFound,
       Event.timerFired 0]).2 9 = 1 ∧
    9 ∈ (run initConfig
      [Event.navCommitted 9 TARGET_URL 0,
       Event.runCloseMatchingTab 9 TARGET_URL,
       Event.injectionResult 9 0 InjectResult.notFound,
       Event.timerFired 0]).1.closingTabs ∧
    closeCountFor (step (run initConfig
      [Event.navCommitted 9 TARGET_URL 0,
       Event.runCloseMatchingTab 9 TARGET_URL,
       Event.injectionResult 9 0 InjectResult.notFound,
       Event.timerFired 0]).1 (Event.successMessage 9)).2 9 = 1 := by decide

/-- C5 (amended): at every reachable state the timer map holds at most one
entry per tab identifier, and once a tab identifier has been removed from
tracking no event can issue a close request for it (until it is tracked
again).  A trigger delivered between a close request and the completion
callback that removes the tab from tracking may still issue a further close
attempt, as the counterexample shows. -/
theorem c5_timer_and_close_invariant (c : Config) (e : Event) (T : Nat) (r : Reason)
    (hreach : Reachable c) (hT : T ∉ c.closingTabs) :
    (mapKeys c.tabTimers).Nodup ∧ Action.closeRequest T r ∉ (step c e).2 :=
  ⟨timerInv_reachable c hreach, no_close_for_untracked c e T r hT⟩

/-- Witness for `c5_timer_and_close_invariant` at the startup configuration. -/
theorem c5_timer_and_close_invariant_witness :
    (Reachable initConfig ∧ 3 ∉ initConfig.closingTabs) ∧
    ((mapKeys initConfig.tabTimers).Nodup ∧
     Action.closeRequest 3 Reason.success ∉ (step initConfig (Event.successMessage 3)).2) :=
  ⟨⟨⟨[], rfl⟩, by decide⟩,
   c5_timer_and_close_invariant initConfig (Event.successMessage 3) 3 Reason.success
     ⟨[], rfl⟩ (by decide)⟩

/-- C6: `closeMatchingTab` on an already-tracked tab is a no-op (identical
state, no actions), and concretely two navigation events for tab 7 in quick
succession yield one tracking entry, one timer-map entry, one pending timer
and a single injection — one eventual close. -/
theorem c6_idempotent_tracking (c : Config) (tabId : Nat) (url : String)
    (h : tabId ∈ c.closingTabs) :
    processCloseMatchingTab c tabId url = (c, []) ∧
    ((run initConfig
      [Event.navCommitted 7 TARGET_URL 0,
       Event.navCommitted 7 TARGET_URL 0,
       Event.runCloseMatchingTab 7 TARGET_URL,
       Event.runCloseMatchingTab 7 TARGET_URL]).1.closingTabs = [7] ∧
     mapKeys (run initConfig
      [Event.navCommitted 7 TARGET_URL 0,
       Event.navCommitted 7 TARGET_URL 0,
       Event.runCloseMatchingTab 7 TARGET_URL,
       Event.runCloseMatchingTab 7 TARGET_URL]).1.tabTimers = [7] ∧
     (run initConfig
      [Event.navCommitted 7 TARGET_URL 0,
       Event.navCommitted 7 TARGET_URL 0,
       Event.runCloseMatchingTab 7 TARGET_URL,
       Event.runCloseMatchingTab 7 TARGET_URL]).1.pendingTimers = [(0, 7)] ∧
     (run initConfig
      [Event.navCommitted 7 TARGET_URL 0,
       Event.navCommitted 7 TARGET_URL 0,
       Event.runCloseMatchingTab 7 TARGET_URL,
       Event.runCloseMatchingTab 7 TARGET_URL]).2 = [Action.inject 7]) := by
  refine ⟨?_, by decide⟩
  by_cases h1 : c.autoCloseEnabled = false ∨ url ≠ TARGET_URL
  · simp [processCloseMatchingTab, h1]
  · simp [processCloseMatchingTab, h1, h]

/-- Witness for `c6_idempotent_tracking` on a concretely tracked tab. -/
theorem c6_idempotent_tracking_witness :
    (7 ∈ (run initConfig
      [Event.navCommitted 7 TARGET_URL 0,
       Event.runCloseMatchingTab 7 TARGET_URL]).1.closingTabs) ∧
    processCloseMatchingTab (run initConfig
      [Event.navCommitted 7 TARGET_URL 0,
       Event.runCloseMatchingTab 7 TARGET_URL]).1 7 TARGET_URL
      = ((run initConfig
      [Event.navCommitted 7 TARGET_URL 0,
       Event.runCloseMatchingTab 7 TARGET_URL]).1, []) :=
  ⟨by decide,
   (c6_idempotent_tracking (run initConfig
      [Event.navCommitted 7 TARGET_URL 0,
       Event.runCloseMatchingTab 7 TARGET_URL]).1 7 TARGET_URL (by decide)).1⟩

/-- C7: the rulesets' enabled state after `updateRedirectRules` is exactly
the pair of flags it was called with; a frontend-flag change via the storage
listener enables the frontend ruleset iff the new value and re-applies the
unchanged backend flag to the backend ruleset (and symmetrically for the
backend flag); in particular toggling the frontend flag to `true` with the
backend ruleset in sync with the backend flag leaves the backend ruleset
state unchanged. -/
theorem c7_rulesets_follow_flags (flags : RedirectFlags) (rs : RulesetState) (f b v : Bool)
    (hsync : rs.backendRulesEnabled = flags.backendRedirectEnabled) :
    (updateRedirectRules f b rs).frontendRulesEnabled = f ∧
    (updateRedirectRules f b rs).backendRulesEnabled = b ∧
    (onFrontendRedirectChanged flags v rs).2.frontendRulesEnabled = v ∧
    (onFrontendRedirectChanged flags v rs).2.backendRulesEnabled
      = flags.backendRedirectEnabled ∧
    (onBackendRedirectChanged flags v rs).2.backendRulesEnabled = v ∧
    (onBackendRedirectChanged flags v rs).2.frontendRulesEnabled
      = flags.frontendRedirectEnabled ∧
    (onFrontendRedirectChanged flags true rs).2.frontendRulesEnabled = true ∧
    (onFrontendRedirectChanged flags true rs).2.backendRulesEnabled
      = rs.backendRulesEnabled := by
  obtain ⟨ff, fb⟩ := flags
  obtain ⟨rf, rb⟩ := rs
  revert hsync
  cases ff <;> cases fb <;> cases rf <;> cases rb <;> cases f <;> cases b <;> cases v <;> decide

/-- Witness for `c7_rulesets_follow_flags`: toggling the frontend flag from
`false` to `true` with everything initially disabled. -/
theorem c7_rulesets_follow_flags_witness :
    ((⟨false, false⟩ : RulesetState).backendRulesEnabled
      = (⟨false, false⟩ : RedirectFlags).backendRedirectEnabled) ∧
    ((updateRedirectRules true false ⟨false, false⟩).frontendRulesEnabled = true ∧
     (updateRedirectRules true false ⟨false, false⟩).backendRulesEnabled = false ∧
     (onFrontendRedirectChanged ⟨false, false⟩ true ⟨false, false⟩).2.frontendRulesEnabled
       = true ∧
     (onFrontendRedirectChanged ⟨false, false⟩ true ⟨false, false⟩).2.backendRulesEnabled
       = (⟨false, false⟩ : RedirectFlags).backendRedirectEnabled ∧
     (onBackendRedirectChanged ⟨false, false⟩ true ⟨false, false⟩).2.backendRulesEnabled
       = true ∧
     (onBackendRedirectChanged ⟨false, false⟩ true ⟨false, false⟩).2.frontendRulesEnabled
       = (⟨false, false⟩ : RedirectFlags).frontendRedirectEnabled ∧
     (onFrontendRedirectChanged ⟨false, false⟩ true ⟨false, false⟩).2.frontendRulesEnabled
       = true ∧
     (onFrontendRedirectChanged ⟨false, false⟩ true ⟨false, false⟩).2.backendRulesEnabled
       = (⟨false, false⟩ : RulesetState).backendRulesEnabled) :=
  ⟨by decide, c7_rulesets_follow_flags ⟨false, false⟩ ⟨false, false⟩ true false true (by decide)⟩

/-- C8 counterexample: a close request issued by the `successMessageFound`
message handler whose `tabs.remove` fails (tab already gone) is logged at
error level, refuting the never-logged-as-error clause. -/
theorem c8_counterexample :
    (step (run initConfig
        [Event.navCommitted 5 TARGET_URL 0,
         Event.runCloseMatchingTab 5 TARGET_URL,
         Event.injectionResult 5 0 InjectResult.notFound,
         Event.successMessage 5]).1
      (Event.tabRemoveDone 5 Reason.observer true)).2 = [Action.log LogLevel.error] := by
  decide

/-- C8 (amended): a failed close issued via `closeTab` (timeout or immediate
success check) is logged as a warning, a failed close issued by the
`successMessageFound` message handler is logged as an error, and in every
case the completion callback removes the tab's tracking entry regardless of
whether the close succeeded or failed. -/
theorem c8_close_failure_logging (c : Config) (tabId : Nat) (reason : Reason) (failed : Bool)
    (hpend : (tabId, reason) ∈ c.pendingRemoves) :
    (reason ≠ Reason.observer → failed = true →
      (step c (Event.tabRemoveDone tabId reason failed)).2 = [Action.log LogLevel.warn]) ∧
    (reason = Reason.observer → failed = true →
      (step c (Event.tabRemoveDone tabId reason failed)).2 = [Action.log LogLevel.error]) ∧
    tabId ∉ (step c (Event.tabRemoveDone tabId reason failed)).1.closingTabs := by
  simp only [step, if_pos hpend]
  refine ⟨?_, ?_, ?_⟩
  · intro hobs hfail
    subst hfail
    simp [hobs]
  · intro hobs hfail
    subst hfail
    simp [hobs]
  · simp

/-- Witness for `c8_close_failure_logging` on a pending timeout close. -/
theorem c8_close_failure_logging_witness :
    ((7, Reason.timeout) ∈ (run initConfig
      [Event.navCommitted 7 TARGET_URL 0,
       Event.runCloseMatchingTab 7 TARGET_URL,
       Event.injectionResult 7 0 InjectResult.notFound,
       Event.timerFired 0]).1.pendingRemoves) ∧
    ((Reason.timeout ≠ Reason.observer → true = true →
      (step (run initConfig
        [Event.navCommitted 7 TARGET_URL 0,
         Event.runCloseMatchingTab 7 TARGET_URL,
         Event.injectionResult 7 0 InjectResult.notFound,
         Event.timerFired 0]).1 (Event.tabRemoveDone 7 Reason.timeout true)).2
        = [Action.log LogLevel.warn]) ∧
     (Reason.timeout = Reason.observer → true = true →
      (step (run initConfig
        [Event.navCommitted 7 TARGET_URL 0,
         Event.runCloseMatchingTab 7 TARGET_URL,
         Event.injectionResult 7 0 InjectResult.notFound,
         Event.timerFired 0]).1 (Event.tabRemoveDone 7 Reason.timeout true)).2
        = [Action.log LogLevel.error]) ∧
     7 ∉ (step (run initConfig
        [Event.navCommitted 7 TARGET_URL 0,
         Event.runCloseMatchingTab 7 TARGET_URL,
         Event.injectionResult 7 0 InjectResult.notFound,
         Event.timerFired 0]).1
       (Event.tabRemoveDone 7 Reason.timeout true)).1.closingTabs) :=
  ⟨by decide,
   c8_close_failure_logging (run initConfig
      [Event.navCommitted 7 TARGET_URL 0,
       Event.runCloseMatchingTab 7 TARGET_URL,
       Event.injectionResult 7 0 InjectResult.notFound,
       Event.timerFired 0]).1 7 Reason.timeout true (by decide)⟩

theorem checkExistingTabs_mem (openTabs : List TabInfo) (t : TabInfo)
    (hmem : t ∈ openTabs) (hurl : t.url = TARGET_URL) :
    (t.id, if t.status = "loading" then LOADING_GRACE_MS else 0)
      ∈ checkExistingTabs true openTabs := by
  unfold checkExistingTabs
  rw [if_neg (by decide : ¬((true : Bool) = false))]
  exact List.mem_map_of_mem _ (List.mem_filter_of_mem hmem (by simp [hurl]))

theorem checkExistingTabs_delay_le (ac : Bool) (openTabs : List TabInfo) (p : Nat × Nat)
    (hp : p ∈ checkExistingTabs ac openTabs) : p.2 ≤ LOADING_GRACE_MS := by
  unfold checkExistingTabs at hp
  split at hp
  · simp at hp
  · rw [List.mem_map] at hp
    obtain ⟨t2, -, rfl⟩ := hp
    by_cases hs : t2.status = "loading" <;> simp [hs, LOADING_GRACE_MS]

/-- C9: starting with no stored settings defaults auto-close to enabled and
both redirect flags to disabled, disables both rulesets, and schedules
monitoring for every open tab at the target URL — after the 1000 ms grace
delay when the tab is still loading, immediately otherwise, so always
within the grace delay. -/
theorem c9_default_startup (rs : RulesetState) (openTabs : List TabInfo) (t : TabInfo)
    (hmem : t ∈ openTabs) (hurl : t.url = TARGET_URL) :
    (backgroundInit ⟨none, none, none⟩ rs openTabs).autoCloseEnabled = true ∧
    (backgroundInit ⟨none, none, none⟩ rs openTabs).frontendRedirectEnabled = false ∧
    (backgroundInit ⟨none, none, none⟩ rs openTabs).backendRedirectEnabled = false ∧
    (backgroundInit ⟨none, none, none⟩ rs openTabs).rules.frontendRulesEnabled = false ∧
    (backgroundInit ⟨none, none, none⟩ rs openTabs).rules.backendRulesEnabled = false ∧
    (t.id, if t.status = "loading" then LOADING_GRACE_MS else 0)
      ∈ (backgroundInit ⟨none, none, none⟩ rs openTabs).monitorSchedule ∧
    (∀ p ∈ (backgroundInit ⟨none, none, none⟩ rs openTabs).monitorSchedule,
      p.2 ≤ LOADING_GRACE_MS) := by
  refine ⟨rfl, rfl, rfl, rfl, rfl, ?_, ?_⟩
  · exact checkExistingTabs_mem openTabs t hmem hurl
  · intro p hp
    exact checkExistingTabs_delay_le true openTabs p hp

/-- Witness for `c9_default_startup` with one loading tab at the target URL. -/
theorem c9_default_startup_witness :
    ((⟨3, TARGET_URL, "loading"⟩ : TabInfo) ∈
        [(⟨3, TARGET_URL, "loading"⟩ : TabInfo)] ∧
     (⟨3, TARGET_URL, "loading"⟩ : TabInfo).url = TARGET_URL) ∧
    ((backgroundInit ⟨none, none, none⟩ ⟨true, true⟩
        [⟨3, TARGET_URL, "loading"⟩]).autoCloseEnabled = true ∧
     (backgroundInit ⟨none, none, none⟩ ⟨true, true⟩
        [⟨3, TARGET_URL, "loading"⟩]).frontendRedirectEnabled = false ∧
     (backgroundInit ⟨none, none, none⟩ ⟨true, true⟩
        [⟨3, TARGET_URL, "loading"⟩]).backendRedirectEnabled = false ∧
     (backgroundInit ⟨none, none, none⟩ ⟨true, true⟩
        [⟨3, TARGET_URL, "loading"⟩]).rules.frontendRulesEnabled = false ∧
     (backgroundInit ⟨none, none, none⟩ ⟨true, true⟩
        [⟨3, TARGET_URL, "loading"⟩]).rules.backendRulesEnabled = false ∧
     ((⟨3, TARGET_URL, "loading"⟩ : TabInfo).id,
        if (⟨3, TARGET_URL, "loading"⟩ : TabInfo).status = "loading"
        then LOADING_GRACE_MS else 0)
       ∈ (backgroundInit ⟨none, none, none⟩ ⟨true, true⟩
        [⟨3, TARGET_URL, "loading"⟩]).monitorSchedule ∧
     (∀ p ∈ (backgroundInit ⟨none, none, none⟩ ⟨true, true⟩
        [⟨3, TARGET_URL, "loading"⟩]).monitorSchedule, p.2 ≤ LOADING_GRACE_MS)) :=
  ⟨⟨by decide, by decide⟩,
   c9_default_startup ⟨true, true⟩ [⟨3, TARGET_URL, "loading"⟩]
     ⟨3, TARGET_URL, "loading"⟩ (by decide) (by decide)⟩

/-- C10 counterexample: tab 0 is tracked, and the immediate one-shot success
check reporting `true` closes it with the success reason — so a tab with
identifier 0 is not closable only via the timeout path. -/
theorem c10_counterexample :
    0 ∈ (run initConfig
      [Event.navCommitted 0 TARGET_URL 0,
       Event.runCloseMatchingTab 0 TARGET_URL]).1.closingTabs ∧
    (step (run initConfig
      [Event.navCommitted 0 TARGET_URL 0,
       Event.runCloseMatchingTab 0 TARGET_URL]).1
      (Event.injectionResult 0 0 InjectResult.found)).2
      = [Action.closeRequest 0 Reason.success] := by decide

/-- C10 (amended): a `successMessageFound` message for tab identifier 0 is
always ignored by the message handler, even while tab 0 is tracked (the
guard treats the falsy identifier as untracked), yet the timeout path still
closes tab 0 normally. -/
theorem c10_zero_tab_message_ignored (c : Config) (tid : Nat)
    (h0 : 0 ∈ c.closingTabs) (htimer : mapGet c.pendingTimers tid = some 0) :
    step c (Event.successMessage 0) = (c, []) ∧
    (step c (Event.timerFired tid)).2 = [Action.closeRequest 0 Reason.timeout] := by
  constructor
  · simp [step]
  · simp only [step, htimer]
    rw [processCloseTab_actions]
    simp [h0]

/-- Witness for `c10_zero_tab_message_ignored` on a concretely tracked tab 0. -/
theorem c10_zero_tab_message_ignored_witness :
    (0 ∈ (run initConfig
      [Event.navCommitted 0 TARGET_URL 0,
       Event.runCloseMatchingTab 0 TARGET_URL]).1.closingTabs ∧
     mapGet (run initConfig
      [Event.navCommitted 0 TARGET_URL 0,
       Event.runCloseMatchingTab 0 TARGET_URL]).1.pendingTimers 0 = some 0) ∧
    (step (run initConfig
      [Event.navCommitted 0 TARGET_URL 0,
       Event.runCloseMatchingTab 0 TARGET_URL]).1 (Event.successMessage 0)
      = ((run initConfig
      [Event.navCommitted 0 TARGET_URL 0,
       Event.runCloseMatchingTab 0 TARGET_URL]).1, []) ∧
     (step (run initConfig
      [Event.navCommitted 0 TARGET_URL 0,
       Event.runCloseMatchingTab 0 TARGET_URL]).1 (Event.timerFired 0)).2
      = [Action.closeRequest 0 Reason.timeout]) :=
  ⟨⟨by decide, by decide⟩,
   c10_zero_tab_message_ignored (run initConfig
      [Event.navCommitted 0 TARGET_URL 0,
       Event.runCloseMatchingTab 0 TARGET_URL]).1 0 (by decide) (by decide)⟩

end Criteria
